import Mathlib

/-!
Verification of the DataDive25 repository's analysis logic against its
natural-language specification.  The Python sources are shallowly embedded:
pandas rows become Lean structures over `ℚ`, data frames become `List`s of
rows, the DuckDB views become list-processing functions with SQL NULL
modelled as `Option ℚ` and SQL three-valued logic as `Option Bool`, and the
numpy random draws become an explicit oracle of rational values indexed by
the loop position at which the Python code draws them.
-/

namespace JobsLens

/-- One row of `most_recent_by_country_2020_2025.xlsx` as read by
`ai_impact_analysis.py`, restricted to the sixteen columns that
`calculate_ai_vulnerability` accesses via `row.get(col, 0)`.  A column that
is missing from the sheet is read as `0` by `row.get`, so it is modelled by
the corresponding field being `0`. -/
structure SurveyRow where
  industry_15_64 : ℚ
  manufacturing_15_64 : ℚ
  commerce_15_64 : ℚ
  clerks_15_64 : ℚ
  machine_operators_15_64 : ℚ
  transport_communication_15_64 : ℚ
  financial_business_services_15_64 : ℚ
  construction_15_64 : ℚ
  technicians_15_64 : ℚ
  agriculture_15_64 : ℚ
  professionals_15_64 : ℚ
  senior_officials_15_64 : ℚ
  service_market_sales_15_64 : ℚ
  post_secondary_education : ℚ
  self_employed_15_64 : ℚ
  informal_jobs_15_64 : ℚ
deriving DecidableEq

/-- `calculate_ai_vulnerability` from
`Team_Projects/JobsLens_AI/src/POC/ai_impact_analysis.py` (lines 50-84).
The Python float literals are modelled exactly as the rationals they denote
in the source text.  Note that `low_risk` is computed by the source but
never used in the final score, and the returned value is
`max(0, min(100, vulnerability))`. -/
def calculate_ai_vulnerability (row : SurveyRow) : ℚ :=
  let high_risk : ℚ :=
    row.industry_15_64 * 0.8 + row.manufacturing_15_64 * 1.0 +
    row.commerce_15_64 * 1.0 + row.clerks_15_64 * 1.0 +
    row.machine_operators_15_64 * 1.0 + row.transport_communication_15_64 * 0.8
  let medium_risk : ℚ :=
    row.financial_business_services_15_64 * 0.6 +
    row.construction_15_64 * 0.5 + row.technicians_15_64 * 0.5
  let low_risk : ℚ :=
    row.agriculture_15_64 * 0.3 + row.professionals_15_64 * 0.2 +
    row.senior_officials_15_64 * 0.1 + row.service_market_sales_15_64 * 0.4
  let protection : ℚ :=
    row.post_secondary_education * 0.5 + row.self_employed_15_64 * 0.3 +
    row.informal_jobs_15_64 * 0.2
  let vulnerability := high_risk * 3 + medium_risk * 2 - protection * 1.5
  max 0 (min 100 vulnerability)

/-- The weighted sum described by the specification sentence for the AI
vulnerability score: 3 times the high-risk term plus 2 times the medium-risk
term minus 1.5 times the protective term, with the listed per-column
weights.  Spec-side definition, kept separate so it can be compared with the
source-side `calculate_ai_vulnerability`. -/
def vulnerability_weighted_sum (row : SurveyRow) : ℚ :=
  3 * (row.industry_15_64 * 0.8 + row.manufacturing_15_64 * 1.0 +
       row.commerce_15_64 * 1.0 + row.clerks_15_64 * 1.0 +
       row.machine_operators_15_64 * 1.0 + row.transport_communication_15_64 * 0.8) +
  2 * (row.financial_business_services_15_64 * 0.6 +
       row.construction_15_64 * 0.5 + row.technicians_15_64 * 0.5) -
  1.5 * (row.post_secondary_education * 0.5 + row.self_employed_15_64 * 0.3 +
       row.informal_jobs_15_64 * 0.2)

/-- A row whose only nonzero column is `Manufacturing, aged 15-64` at 50%. -/
def manufacturingOnlyRow : SurveyRow :=
  { industry_15_64 := 0, manufacturing_15_64 := 50, commerce_15_64 := 0,
    clerks_15_64 := 0, machine_operators_15_64 := 0,
    transport_communication_15_64 := 0,
    financial_business_services_15_64 := 0, construction_15_64 := 0,
    technicians_15_64 := 0, agriculture_15_64 := 0, professionals_15_64 := 0,
    senior_officials_15_64 := 0, service_market_sales_15_64 := 0,
    post_secondary_education := 0, self_employed_15_64 := 0,
    informal_jobs_15_64 := 0 }

/-- C3 counterexample: on the row whose only nonzero column is
Manufacturing = 50, the weighted sum is 150 but `calculate_ai_vulnerability`
returns 100, so the returned score is not the weighted sum. -/
theorem c3_counterexample :
    calculate_ai_vulnerability manufacturingOnlyRow ≠
      vulnerability_weighted_sum manufacturingOnlyRow := by
  norm_num [calculate_ai_vulnerability, vulnerability_weighted_sum,
    manufacturingOnlyRow]

/-- C3 (amended): for every row, the score returned by
`calculate_ai_vulnerability` is the claimed weighted sum (3 × high-risk term
+ 2 × medium-risk term − 1.5 × protective term, with the listed per-column
weights) clamped into the interval [0, 100]. -/
theorem c3_vulnerability_is_clamped_weighted_sum (row : SurveyRow) :
    calculate_ai_vulnerability row =
      max 0 (min 100 (vulnerability_weighted_sum row)) := by
  unfold calculate_ai_vulnerability vulnerability_weighted_sum
  ring_nf

/-- C8: for every input row, whatever the magnitudes or signs of its fields,
the value returned by `calculate_ai_vulnerability` lies between 0 and 100. -/
theorem c8_vulnerability_bounded (row : SurveyRow) :
    0 ≤ calculate_ai_vulnerability row ∧ calculate_ai_vulnerability row ≤ 100 := by
  unfold calculate_ai_vulnerability
  refine ⟨le_max_left _ _, max_le (by norm_num) (min_le_left _ _)⟩

/-- C9: the score does not depend on the four low-risk sector columns
(Agriculture, Professionals, Senior Officials, Service and Market Sales):
two rows that agree on every other field get equal scores. -/
theorem c9_score_independent_of_low_risk_fields (r1 r2 : SurveyRow)
    (h1 : r1.industry_15_64 = r2.industry_15_64)
    (h2 : r1.manufacturing_15_64 = r2.manufacturing_15_64)
    (h3 : r1.commerce_15_64 = r2.commerce_15_64)
    (h4 : r1.clerks_15_64 = r2.clerks_15_64)
    (h5 : r1.machine_operators_15_64 = r2.machine_operators_15_64)
    (h6 : r1.transport_communication_15_64 = r2.transport_communication_15_64)
    (h7 : r1.financial_business_services_15_64 = r2.financial_business_services_15_64)
    (h8 : r1.construction_15_64 = r2.construction_15_64)
    (h9 : r1.technicians_15_64 = r2.technicians_15_64)
    (h10 : r1.post_secondary_education = r2.post_secondary_education)
    (h11 : r1.self_employed_15_64 = r2.self_employed_15_64)
    (h12 : r1.informal_jobs_15_64 = r2.informal_jobs_15_64) :
    calculate_ai_vulnerability r1 = calculate_ai_vulnerability r2 := by
  unfold calculate_ai_vulnerability
  rw [h1, h2, h3, h4, h5, h6, h7, h8, h9, h10, h11, h12]

/-- A copy of `manufacturingOnlyRow` with the low-risk Agriculture column
changed from 0 to 37. -/
def manufacturingAgricultureRow : SurveyRow :=
  { manufacturingOnlyRow with agriculture_15_64 := 37 }

/-- Witness for C9 at concrete rows differing only in the Agriculture
column. -/
theorem c9_witness :
    calculate_ai_vulnerability manufacturingOnlyRow =
      calculate_ai_vulnerability manufacturingAgricultureRow :=
  c9_score_independent_of_low_risk_fields manufacturingOnlyRow
    manufacturingAgricultureRow rfl rfl rfl rfl rfl rfl rfl rfl rfl rfl rfl rfl

end JobsLens

namespace DigitalJobs

/-- `SAMPLE_COUNTRIES` from
`Team_Projects/DigitalAIJobsDashboard/load_data.py`. -/
def SAMPLE_COUNTRIES : List String :=
  ["USA", "CHN", "IND", "BRA", "MEX", "IDN", "TUR", "THA", "VNM", "PHL",
   "BGD", "PAK", "NGA", "EGY", "ZAF", "KEN", "GHA", "ETH", "TZA", "UGA"]

/-- `years = list(range(2015, 2025))` in `create_sample_digital_jobs_data`. -/
def sample_years : List ℤ := (List.range 10).map (fun k => 2015 + (k : ℤ))

/-- The `industries` list of `create_sample_digital_jobs_data`. -/
def sample_industries : List String :=
  ["Information Technology", "Financial Services", "Manufacturing",
   "Healthcare", "Education", "Retail", "Telecommunications",
   "Professional Services"]

/-- The `skill_types` list of `create_sample_digital_jobs_data`. -/
def sample_skill_types : List String :=
  ["AI/ML Engineering", "Data Science", "Software Development",
   "Cybersecurity", "Cloud Computing", "Digital Marketing",
   "Data Analytics", "IT Support"]

/-- The `country_names` dictionary of `get_country_name` in `load_data.py`. -/
def country_names : List (String × String) :=
  [("USA", "United States"), ("CHN", "China"), ("IND", "India"),
   ("BRA", "Brazil"), ("MEX", "Mexico"), ("IDN", "Indonesia"),
   ("TUR", "Turkey"), ("THA", "Thailand"), ("VNM", "Vietnam"),
   ("PHL", "Philippines"), ("BGD", "Bangladesh"), ("PAK", "Pakistan"),
   ("NGA", "Nigeria"), ("EGY", "Egypt"), ("ZAF", "South Africa"),
   ("KEN", "Kenya"), ("GHA", "Ghana"), ("ETH", "Ethiopia"),
   ("TZA", "Tanzania"), ("UGA", "Uganda")]

/-- `get_country_name` from `load_data.py`: dictionary lookup with the code
itself as default. -/
def get_country_name (code : String) : String :=
  (country_names.lookup code).getD code

/-- Oracle for the numpy random draws made by
`create_sample_digital_jobs_data`, indexed by the loop position at which the
Python code draws them: one `base_demand`/`base_supply`/trend pair per
(country, year), one `industry_multiplier` per (country, year, industry),
and one `skill_multiplier` and two normal noises per
(country, year, industry, skill). -/
structure SampleRng where
  base_demand : String → ℤ → ℚ
  base_supply : String → ℤ → ℚ
  trend_demand : String → ℤ → ℚ
  trend_supply : String → ℤ → ℚ
  industry_mult : String → ℤ → String → ℚ
  skill_mult : String → ℤ → String → String → ℚ
  noise_demand : String → ℤ → String → String → ℚ
  noise_supply : String → ℤ → String → String → ℚ

/-- One record of the `digital_jobs` data frame built by
`create_sample_digital_jobs_data` in `load_data.py` (lines 150-161). -/
structure JobsRecord where
  country_code : String
  country_name : String
  year : ℤ
  industry : String
  skill_type : String
  demand_index : ℚ
  supply_index : ℚ
  gap : ℚ
deriving DecidableEq

/-- The record appended by the innermost loop of
`create_sample_digital_jobs_data` for a given (country, year, industry,
skill) combination: `demand_index`/`supply_index` are the scaled products
plus a normal noise draw, clamped below at 0 by `max(0, ...)`, while `gap`
is the difference of the noise-free, unclamped products. -/
def sampleRecord (rng : SampleRng) (country : String) (year : ℤ)
    (industry skill : String) : JobsRecord :=
  let base_demand := rng.base_demand country year
  let base_supply := rng.base_supply country year
  let trend_factor : ℚ := ((year : ℚ) - 2015) / 10
  let demand0 := base_demand * (1 + trend_factor * rng.trend_demand country year)
  let supply0 := base_supply * (1 + trend_factor * rng.trend_supply country year)
  let demand :=
    if country ∈ (["USA", "CHN", "IND"] : List String) then demand0 * 1.5 else demand0
  let supply :=
    if country ∈ (["USA", "CHN", "IND"] : List String) then supply0 * 1.3 else supply0
  let industry_multiplier := rng.industry_mult country year industry
  let skill_multiplier := rng.skill_mult country year industry skill
  { country_code := country
    country_name := get_country_name country
    year := year
    industry := industry
    skill_type := skill
    demand_index := max 0 (demand * industry_multiplier * skill_multiplier +
      rng.noise_demand country year industry skill)
    supply_index := max 0 (supply * industry_multiplier * skill_multiplier +
      rng.noise_supply country year industry skill)
    gap := demand * industry_multiplier * skill_multiplier -
      supply * industry_multiplier * skill_multiplier }

/-- `create_sample_digital_jobs_data` from `load_data.py` (lines 95-166):
the four nested loops over countries, years, industries and skill types,
appending one record per combination. -/
def create_sample_digital_jobs_data (rng : SampleRng) : List JobsRecord :=
  SAMPLE_COUNTRIES.flatMap fun country =>
    sample_years.flatMap fun year =>
      sample_industries.flatMap fun industry =>
        sample_skill_types.map fun skill =>
          sampleRecord rng country year industry skill

/-- The (country, year, industry, skill) key of a record. -/
def recordKey (r : JobsRecord) : String × ℤ × String × String :=
  (r.country_code, r.year, r.industry, r.skill_type)

/-- The list of keys the generator iterates over, in loop order. -/
def sampleKeys : List (String × ℤ × String × String) :=
  SAMPLE_COUNTRIES.flatMap fun country =>
    sample_years.flatMap fun year =>
      sample_industries.flatMap fun industry =>
        sample_skill_types.map fun skill =>
          (country, year, industry, skill)

theorem recordKey_sampleRecord (rng : SampleRng) (c : String) (y : ℤ)
    (i s : String) : recordKey (sampleRecord rng c y i s) = (c, y, i, s) := rfl

theorem map_recordKey_create_sample (rng : SampleRng) :
    (create_sample_digital_jobs_data rng).map recordKey = sampleKeys := by
  simp [create_sample_digital_jobs_data, sampleKeys, List.map_flatMap,
    List.map_map, Function.comp_def, recordKey_sampleRecord]

theorem sampleKeys_eq_product :
    sampleKeys =
      SAMPLE_COUNTRIES ×ˢ (sample_years ×ˢ (sample_industries ×ˢ sample_skill_types)) := by
  simp [sampleKeys, SProd.sprod, List.product, List.map_flatMap, List.map_map,
    Function.comp_def]

theorem sampleKeys_nodup : sampleKeys.Nodup := by
  rw [sampleKeys_eq_product]
  exact List.Nodup.product (by decide)
    (List.Nodup.product (by decide) (List.Nodup.product (by decide) (by decide)))

theorem length_flatMap_const {α : Type} {β : Type} (l : List α) (f : α → List β)
    (n : ℕ) (h : ∀ a ∈ l, (f a).length = n) :
    (l.flatMap f).length = l.length * n := by
  induction l with
  | nil => simp
  | cons a t ih =>
      simp only [List.flatMap_cons, List.length_append, List.length_cons]
      rw [h a (by simp), ih (fun b hb => h b (by simp [hb]))]
      ring

theorem countP_eq_one_of_nodup_mem {α : Type} [DecidableEq α] {l : List α}
    (hl : l.Nodup) {a : α} (ha : a ∈ l) :
    l.countP (fun x => x = a) = 1 := by
  induction l with
  | nil => simp at ha
  | cons b t ih =>
      rw [List.countP_cons]
      by_cases hba : b = a
      · subst hba
        have hb : b ∉ t := (List.nodup_cons.1 hl).1
        have ht : t.countP (fun x => x = b) = 0 := by
          rw [List.countP_eq_zero]
          intro x hx
          simp only [decide_eq_true_eq]
          rintro rfl
          exact hb hx
        simp [ht]
      · have ha' : a ∈ t := by
          rcases List.mem_cons.1 ha with h | h
          · exact absurd h.symm hba
          · exact h
        rw [ih (List.nodup_cons.1 hl).2 ha']
        simp [hba]

theorem create_sample_length (rng : SampleRng) :
    (create_sample_digital_jobs_data rng).length = 12800 := by
  rw [create_sample_digital_jobs_data]
  rw [length_flatMap_const _ _ 640 ?_]
  · rfl
  · intro c _
    rw [length_flatMap_const _ _ 64 ?_]
    · rfl
    · intro y _
      rw [length_flatMap_const _ _ 8 ?_]
      · rfl
      · intro i _
        rfl

/-- C7: for every random oracle, `create_sample_digital_jobs_data` produces
12800 records — exactly one per combination of the 20 configured countries,
the 10 years 2015-2024, the 8 industries and the 8 skill types — each record
carrying its `demand_index`, `supply_index` and `gap` (rational) fields. -/
theorem c7_one_record_per_combination (rng : SampleRng) :
    (create_sample_digital_jobs_data rng).length = 12800 ∧
    ∀ c ∈ SAMPLE_COUNTRIES, ∀ y ∈ sample_years, ∀ i ∈ sample_industries,
      ∀ s ∈ sample_skill_types,
        (create_sample_digital_jobs_data rng).countP
          (fun r => recordKey r = (c, y, i, s)) = 1 := by
  refine ⟨create_sample_length rng, ?_⟩
  intro c hc y hy i hi s hs
  have hk : (c, y, i, s) ∈ sampleKeys := by
    rw [sampleKeys_eq_product]
    exact List.mem_product.2 ⟨hc, List.mem_product.2 ⟨hy,
      List.mem_product.2 ⟨hi, hs⟩⟩⟩
  have h2 : ((create_sample_digital_jobs_data rng).map recordKey).countP
      (fun t => t = (c, y, i, s)) =
      (create_sample_digital_jobs_data rng).countP
        (fun r => recordKey r = (c, y, i, s)) :=
    List.countP_map _ _ _
  rw [← h2, map_recordKey_create_sample]
  exact countP_eq_one_of_nodup_mem sampleKeys_nodup hk

/-- A concrete oracle: every uniform draw is inside the support of the numpy
distribution the source draws it from, and the demand noise draw is 1 while
the supply noise draw is 0. -/
def noiseRng : SampleRng :=
  { base_demand := fun _ _ => 10
    base_supply := fun _ _ => 5
    trend_demand := fun _ _ => 1/10
    trend_supply := fun _ _ => 1/10
    industry_mult := fun _ _ _ => 1
    skill_mult := fun _ _ _ _ => 1
    noise_demand := fun _ _ _ _ => 1
    noise_supply := fun _ _ _ _ => 0 }

/-- Witness for C7 at the concrete oracle `noiseRng` and the first key. -/
theorem c7_witness :
    (create_sample_digital_jobs_data noiseRng).length = 12800 ∧
    (create_sample_digital_jobs_data noiseRng).countP
      (fun r => recordKey r =
        ("USA", 2015, "Information Technology", "AI/ML Engineering")) = 1 :=
  ⟨(c7_one_record_per_combination noiseRng).1,
    (c7_one_record_per_combination noiseRng).2 "USA" (by decide) 2015
      (by decide) "Information Technology" (by decide) "AI/ML Engineering"
      (by decide)⟩

/-- The noise-free, unclamped demand product
`demand * industry_multiplier * skill_multiplier` that
`create_sample_digital_jobs_data` uses in its `gap` expression. -/
def demandComponent (rng : SampleRng) (country : String) (year : ℤ)
    (industry skill : String) : ℚ :=
  let base_demand := rng.base_demand country year
  let trend_factor : ℚ := ((year : ℚ) - 2015) / 10
  let demand0 := base_demand * (1 + trend_factor * rng.trend_demand country year)
  let demand :=
    if country ∈ (["USA", "CHN", "IND"] : List String) then demand0 * 1.5 else demand0
  demand * rng.industry_mult country year industry *
    rng.skill_mult country year industry skill

/-- The noise-free, unclamped supply product
`supply * industry_multiplier * skill_multiplier` that
`create_sample_digital_jobs_data` uses in its `gap` expression. -/
def supplyComponent (rng : SampleRng) (country : String) (year : ℤ)
    (industry skill : String) : ℚ :=
  let base_supply := rng.base_supply country year
  let trend_factor : ℚ := ((year : ℚ) - 2015) / 10
  let supply0 := base_supply * (1 + trend_factor * rng.trend_supply country year)
  let supply :=
    if country ∈ (["USA", "CHN", "IND"] : List String) then supply0 * 1.3 else supply0
  supply * rng.industry_mult country year industry *
    rng.skill_mult country year industry skill

/-- One row of the `country_trends` view / the `country_df` frame of the
dashboard (columns `country_code`, `country_name`, `year`, `avg_demand`,
`avg_supply`, `avg_gap`, `num_records`). -/
structure CountryTrendRow where
  country_code : String
  country_name : String
  year : ℤ
  avg_demand : ℚ
  avg_supply : ℚ
  avg_gap : ℚ
  num_records : ℕ
deriving DecidableEq

/-- pandas `Series.mean()` on a rational column. -/
def column_mean (xs : List ℚ) : ℚ := xs.sum / xs.length

/-- The Summary Metrics block of `main` in `app.py` (lines 996-1005): for
one country's recent rows it computes the displayed average demand, the
displayed average supply, and the gap metric `avg_demand - avg_supply`. -/
def summary_metrics (country_data : List CountryTrendRow) : ℚ × ℚ × ℚ :=
  let avg_demand := column_mean (country_data.map (·.avg_demand))
  let avg_supply := column_mean (country_data.map (·.avg_supply))
  let gap := avg_demand - avg_supply
  (avg_demand, avg_supply, gap)

theorem firstRecord_mem :
    sampleRecord noiseRng "USA" 2015 "Information Technology" "AI/ML Engineering" ∈
      create_sample_digital_jobs_data noiseRng := by
  rw [create_sample_digital_jobs_data]
  refine List.mem_flatMap.2 ⟨"USA", by decide, ?_⟩
  refine List.mem_flatMap.2 ⟨2015, by decide, ?_⟩
  refine List.mem_flatMap.2 ⟨"Information Technology", by decide, ?_⟩
  exact List.mem_map.2 ⟨"AI/ML Engineering", by decide, rfl⟩

/-- C1 counterexample: at an oracle whose demand noise draw is 1 (inside the
support of `np.random.normal(0, 5)`), the first generated record has
`gap = 8.5` while `demand_index - supply_index = 9.5`. -/
theorem c1_counterexample :
    ∃ r ∈ create_sample_digital_jobs_data noiseRng,
      r.gap ≠ r.demand_index - r.supply_index := by
  refine ⟨sampleRecord noiseRng "USA" 2015 "Information Technology"
    "AI/ML Engineering", firstRecord_mem, ?_⟩
  simp only [sampleRecord, noiseRng]
  norm_num [max_def]

/-- C1 (amended): every record's `gap` field equals the noise-free,
unclamped demand product minus the noise-free, unclamped supply product —
not `demand_index - supply_index`, since those two fields additionally
receive independent normal noise and a `max(0, ·)` clamp; and the gap
metric of the dashboard summary equals the displayed average demand minus
the displayed average supply. -/
theorem c1_gap_amended (rng : SampleRng) :
    (∀ r ∈ create_sample_digital_jobs_data rng,
      r.gap =
        demandComponent rng r.country_code r.year r.industry r.skill_type -
        supplyComponent rng r.country_code r.year r.industry r.skill_type) ∧
    (∀ rows : List CountryTrendRow,
      (summary_metrics rows).2.2 =
        (summary_metrics rows).1 - (summary_metrics rows).2.1) := by
  constructor
  · intro r hr
    rw [create_sample_digital_jobs_data] at hr
    obtain ⟨c, hc, hr⟩ := List.mem_flatMap.1 hr
    obtain ⟨y, hy, hr⟩ := List.mem_flatMap.1 hr
    obtain ⟨i, hi, hr⟩ := List.mem_flatMap.1 hr
    obtain ⟨s, hs, rfl⟩ := List.mem_map.1 hr
    rfl
  · intro rows
    rfl

/-- Witness for C1 (amended) at the concrete oracle `noiseRng`, the first
generated record, and a single-row summary frame. -/
theorem c1_witness :
    (sampleRecord noiseRng "USA" 2015 "Information Technology"
        "AI/ML Engineering").gap =
      demandComponent noiseRng "USA" 2015 "Information Technology"
        "AI/ML Engineering" -
      supplyComponent noiseRng "USA" 2015 "Information Technology"
        "AI/ML Engineering" :=
  (c1_gap_amended noiseRng).1 _ firstRecord_mem

/-- First-appearance deduplication, as pandas `unique()` and the group-key
enumeration of SQL GROUP BY produce group keys. -/
def uniqueFirst {α : Type} [DecidableEq α] : List α → List α
  | [] => []
  | a :: l => a :: (uniqueFirst l).filter (fun x => x ≠ a)

theorem mem_uniqueFirst {α : Type} [DecidableEq α] (l : List α) (a : α) :
    a ∈ uniqueFirst l ↔ a ∈ l := by
  induction l with
  | nil => simp [uniqueFirst]
  | cons b t ih =>
      by_cases hab : a = b
      · subst hab
        simp [uniqueFirst]
      · simp [uniqueFirst, List.mem_filter, hab, ih]

theorem nodup_uniqueFirst {α : Type} [DecidableEq α] (l : List α) :
    (uniqueFirst l).Nodup := by
  induction l with
  | nil => simp [uniqueFirst]
  | cons b t ih =>
      rw [uniqueFirst, List.nodup_cons]
      refine ⟨fun hb => ?_, List.Nodup.filter _ ih⟩
      have := (List.mem_filter.1 hb).2
      simp at this

/-- Accumulator of a single-pass SUM/COUNT aggregation over the
`digital_jobs` rows of one group, as an aggregating engine computes the
`country_trends` view. -/
structure AggState where
  sum_demand : ℚ
  sum_supply : ℚ
  sum_gap : ℚ
  n : ℕ
deriving DecidableEq

def aggStep (acc : AggState) (r : JobsRecord) : AggState :=
  { sum_demand := acc.sum_demand + r.demand_index
    sum_supply := acc.sum_supply + r.supply_index
    sum_gap := acc.sum_gap + r.gap
    n := acc.n + 1 }

def aggregate (rows : List JobsRecord) : AggState :=
  rows.foldl aggStep ⟨0, 0, 0, 0⟩

theorem foldl_aggStep (rows : List JobsRecord) (acc : AggState) :
    rows.foldl aggStep acc =
      { sum_demand := acc.sum_demand + (rows.map (·.demand_index)).sum
        sum_supply := acc.sum_supply + (rows.map (·.supply_index)).sum
        sum_gap := acc.sum_gap + (rows.map (·.gap)).sum
        n := acc.n + rows.length } := by
  induction rows generalizing acc with
  | nil => simp
  | cons r t ih =>
      rw [List.foldl_cons, ih]
      simp only [aggStep, List.map_cons, List.sum_cons, List.length_cons,
        AggState.mk.injEq]
      refine ⟨by ring, by ring, by ring, by omega⟩

theorem aggregate_spec (rows : List JobsRecord) :
    aggregate rows =
      { sum_demand := (rows.map (·.demand_index)).sum
        sum_supply := (rows.map (·.supply_index)).sum
        sum_gap := (rows.map (·.gap)).sum
        n := rows.length } := by
  rw [aggregate, foldl_aggStep]
  simp

/-- `ORDER BY country_code, year` as a boolean sort relation. -/
def ctLe (r1 r2 : CountryTrendRow) : Bool :=
  decide (r1.country_code < r2.country_code) ||
    (decide (r1.country_code = r2.country_code) && decide (r1.year ≤ r2.year))

/-- The `country_trends` view from `create_database` in `load_data.py`
(lines 226-239): group `digital_jobs` by (country_code, country_name, year),
aggregate AVG(demand_index), AVG(supply_index), AVG(gap) and COUNT(*) in a
single pass per group, and order by country_code then year. -/
def country_trends (tbl : List JobsRecord) : List CountryTrendRow :=
  ((uniqueFirst (tbl.map (fun r => (r.country_code, r.country_name, r.year)))).map
    (fun k =>
      let a := aggregate (tbl.filter (fun r =>
        (r.country_code, r.country_name, r.year) = k))
      { country_code := k.1
        country_name := k.2.1
        year := k.2.2
        avg_demand := a.sum_demand / (a.n : ℚ)
        avg_supply := a.sum_supply / (a.n : ℚ)
        avg_gap := a.sum_gap / (a.n : ℚ)
        num_records := a.n })).mergeSort ctLe

/-- The rows of `digital_jobs` forming the (cc, cn, y) group. -/
def groupOf (tbl : List JobsRecord) (cc cn : String) (y : ℤ) : List JobsRecord :=
  tbl.filter (fun r => (r.country_code, r.country_name, r.year) = (cc, cn, y))

/-- C5: in the `country_trends` view, every row's `avg_demand`,
`avg_supply` and `avg_gap` are the arithmetic means of `demand_index`,
`supply_index` and `gap` over the rows of its (country_code, country_name,
year) group, `num_records` is the group's row count, and every group of the
table contributes a view row. -/
theorem c5_country_trends_means (tbl : List JobsRecord) :
    (∀ row ∈ country_trends tbl,
      row.avg_demand =
        ((groupOf tbl row.country_code row.country_name row.year).map
          (·.demand_index)).sum /
          ((groupOf tbl row.country_code row.country_name row.year).length : ℚ) ∧
      row.avg_supply =
        ((groupOf tbl row.country_code row.country_name row.year).map
          (·.supply_index)).sum /
          ((groupOf tbl row.country_code row.country_name row.year).length : ℚ) ∧
      row.avg_gap =
        ((groupOf tbl row.country_code row.country_name row.year).map
          (·.gap)).sum /
          ((groupOf tbl row.country_code row.country_name row.year).length : ℚ) ∧
      row.num_records =
        (groupOf tbl row.country_code row.country_name row.year).length) ∧
    (∀ r ∈ tbl, ∃ row ∈ country_trends tbl,
      row.country_code = r.country_code ∧ row.country_name = r.country_name ∧
        row.year = r.year) := by
  constructor
  · intro row hrow
    rw [country_trends, List.mem_mergeSort] at hrow
    obtain ⟨k, hk, rfl⟩ := List.mem_map.1 hrow
    refine ⟨?_, ?_, ?_, ?_⟩ <;>
      simp only [groupOf, aggregate_spec]
  · intro r hr
    have hk : (r.country_code, r.country_name, r.year) ∈
        uniqueFirst (tbl.map fun x => (x.country_code, x.country_name, x.year)) := by
      rw [mem_uniqueFirst]
      exact List.mem_map.2 ⟨r, hr, rfl⟩
    rw [country_trends]
    refine ⟨_, List.mem_mergeSort.2 (List.mem_map.2 ⟨_, hk, rfl⟩), rfl, rfl, rfl⟩

/-- A two-record `digital_jobs` table with a single (country, name, year)
group, used to instantiate the view theorems. -/
def exJobsTbl : List JobsRecord :=
  [{ country_code := "AAA", country_name := "A", year := 2016, industry := "X",
     skill_type := "Y", demand_index := 1, supply_index := 2, gap := 3 },
   { country_code := "AAA", country_name := "A", year := 2016, industry := "X",
     skill_type := "Z", demand_index := 3, supply_index := 4, gap := 5 }]

/-- The `country_trends` row for the single group of `exJobsTbl`. -/
def exCtRow : CountryTrendRow :=
  { country_code := "AAA", country_name := "A", year := 2016,
    avg_demand := 2, avg_supply := 3, avg_gap := 4, num_records := 2 }

theorem exCtRow_mem : exCtRow ∈ country_trends exJobsTbl := by
  rw [country_trends]
  refine List.mem_mergeSort.2 (List.mem_map.2 ⟨("AAA", "A", 2016), by decide, ?_⟩)
  norm_num [exJobsTbl, exCtRow, aggregate, aggStep, List.filter,
    CountryTrendRow.mk.injEq]

/-- Witness for C5 at the concrete table `exJobsTbl` and its view row. -/
theorem c5_witness :
    exCtRow.avg_demand =
      ((groupOf exJobsTbl exCtRow.country_code exCtRow.country_name
        exCtRow.year).map (·.demand_index)).sum /
        ((groupOf exJobsTbl exCtRow.country_code exCtRow.country_name
          exCtRow.year).length : ℚ) ∧
    exCtRow.avg_supply =
      ((groupOf exJobsTbl exCtRow.country_code exCtRow.country_name
        exCtRow.year).map (·.supply_index)).sum /
        ((groupOf exJobsTbl exCtRow.country_code exCtRow.country_name
          exCtRow.year).length : ℚ) ∧
    exCtRow.avg_gap =
      ((groupOf exJobsTbl exCtRow.country_code exCtRow.country_name
        exCtRow.year).map (·.gap)).sum /
        ((groupOf exJobsTbl exCtRow.country_code exCtRow.country_name
          exCtRow.year).length : ℚ) ∧
    exCtRow.num_records =
      (groupOf exJobsTbl exCtRow.country_code exCtRow.country_name
        exCtRow.year).length :=
  (c5_country_trends_means exJobsTbl).1 exCtRow exCtRow_mem

/-- `query = "SELECT * FROM country_trends WHERE 1=1"`: the base condition
of `get_country_trends` in `app.py`. -/
def base_condition : CountryTrendRow → Bool := fun _ => true

/-- `if selected_countries:` (Python truthiness: both `None` and the empty
list skip the clause) `query += " AND country_code IN (...)"`. -/
def with_country_filter (selected_countries : Option (List String))
    (cond : CountryTrendRow → Bool) : CountryTrendRow → Bool :=
  match selected_countries with
  | some cs =>
      if cs.isEmpty then cond
      else fun r => cond r && cs.contains r.country_code
  | none => cond

/-- `if year_range:` `query += " AND year >= lo AND year <= hi"`. -/
def with_year_filter (year_range : Option (ℤ × ℤ))
    (cond : CountryTrendRow → Bool) : CountryTrendRow → Bool :=
  match year_range with
  | some yr => fun r => cond r && (decide (yr.1 ≤ r.year) && decide (r.year ≤ yr.2))
  | none => cond

/-- `get_country_trends` from `app.py` (lines 62-79): the string-assembled
query is embedded as the conjunction of the conditions it concatenates,
evaluated against the `country_trends` view, with the final
`ORDER BY country_code, year`. -/
def get_country_trends (selected_countries : Option (List String))
    (year_range : Option (ℤ × ℤ)) (country_trends_tbl : List CountryTrendRow) :
    List CountryTrendRow :=
  (country_trends_tbl.filter
    (with_year_filter year_range
      (with_country_filter selected_countries base_condition))).mergeSort ctLe

/-- The claim's row condition on countries: all rows pass when the argument
is `None` or the empty list, otherwise the row's country must be selected. -/
def selected_ok (selected_countries : Option (List String))
    (r : CountryTrendRow) : Prop :=
  match selected_countries with
  | none => True
  | some cs => cs = [] ∨ r.country_code ∈ cs

/-- The claim's row condition on years: all rows pass when the argument is
`None`, otherwise the row's year lies in the inclusive range. -/
def year_ok (year_range : Option (ℤ × ℤ)) (r : CountryTrendRow) : Prop :=
  match year_range with
  | none => True
  | some yr => yr.1 ≤ r.year ∧ r.year ≤ yr.2

instance (sc : Option (List String)) (r : CountryTrendRow) :
    Decidable (selected_ok sc r) :=
  match sc with
  | none => .isTrue trivial
  | some cs => inferInstanceAs (Decidable (cs = [] ∨ r.country_code ∈ cs))

instance (yr : Option (ℤ × ℤ)) (r : CountryTrendRow) :
    Decidable (year_ok yr r) :=
  match yr with
  | none => .isTrue trivial
  | some p => inferInstanceAs (Decidable (p.1 ≤ r.year ∧ r.year ≤ p.2))

theorem built_condition_eq_spec (sc : Option (List String))
    (yr : Option (ℤ × ℤ)) (r : CountryTrendRow) :
    with_year_filter yr (with_country_filter sc base_condition) r =
      (decide (selected_ok sc r) && decide (year_ok yr r)) := by
  rcases sc with _ | cs
  · rcases yr with _ | p <;>
      simp [with_year_filter, with_country_filter, base_condition,
        selected_ok, year_ok]
  · rcases cs with _ | ⟨c0, cs'⟩ <;> rcases yr with _ | p <;>
      simp [with_year_filter, with_country_filter, base_condition,
        selected_ok, year_ok]

theorem ctLe_trans (a b c : CountryTrendRow) (hab : ctLe a b = true)
    (hbc : ctLe b c = true) : ctLe a c = true := by
  simp only [ctLe, Bool.or_eq_true, Bool.and_eq_true, decide_eq_true_eq] at *
  rcases hab with h1 | ⟨h1, h1'⟩ <;> rcases hbc with h2 | ⟨h2, h2'⟩
  · exact Or.inl (h1.trans h2)
  · exact Or.inl (h2 ▸ h1)
  · exact Or.inl (h1 ▸ h2)
  · exact Or.inr ⟨h1.trans h2, h1'.trans h2'⟩

theorem ctLe_total (a b : CountryTrendRow) : (ctLe a b || ctLe b a) = true := by
  simp only [ctLe, Bool.or_eq_true, Bool.and_eq_true, decide_eq_true_eq]
  rcases lt_trichotomy a.country_code b.country_code with h | h | h
  · exact Or.inl (Or.inl h)
  · rcases le_total a.year b.year with hy | hy
    · exact Or.inl (Or.inr ⟨h, hy⟩)
    · exact Or.inr (Or.inr ⟨h.symm, hy⟩)
  · exact Or.inr (Or.inl h)

/-- C6: for all arguments, `get_country_trends` returns exactly the rows of
the `country_trends` view whose country is selected (all countries when the
argument is `None` or empty) and whose year lies inside the inclusive range
(all years when `None`), ordered by country_code then year. -/
theorem c6_get_country_trends_filters (selected_countries : Option (List String))
    (year_range : Option (ℤ × ℤ)) (tbl : List CountryTrendRow) :
    (get_country_trends selected_countries year_range tbl).Perm
      (tbl.filter (fun r => decide (selected_ok selected_countries r) &&
        decide (year_ok year_range r))) ∧
    (get_country_trends selected_countries year_range tbl).Pairwise
      (fun r1 r2 => r1.country_code < r2.country_code ∨
        (r1.country_code = r2.country_code ∧ r1.year ≤ r2.year)) := by
  constructor
  · rw [get_country_trends,
      List.filter_congr (fun x _ =>
        built_condition_eq_spec selected_countries year_range x)]
    exact List.mergeSort_perm _ _
  · rw [get_country_trends]
    refine (List.sorted_mergeSort ctLe_trans ctLe_total _).imp ?_
    intro a b hab
    simpa only [ctLe, Bool.or_eq_true, Bool.and_eq_true, decide_eq_true_eq]
      using hab

/-- SQL `AVG` over a column with NULLs: NULL inputs are ignored, and the
average of an all-NULL set is NULL. -/
def sqlAvg (l : List (Option ℚ)) : Option ℚ :=
  let xs := l.filterMap id
  if xs.isEmpty then none else some (xs.sum / (xs.length : ℚ))

/-- SQL `NULLIF(a, b)`. -/
def nullif (a : Option ℚ) (b : ℚ) : Option ℚ :=
  match a with
  | none => none
  | some x => if x = b then none else some x

def sqlSub : Option ℚ → Option ℚ → Option ℚ
  | some x, some y => some (x - y)
  | _, _ => none

def sqlDiv : Option ℚ → Option ℚ → Option ℚ
  | some x, some y => some (x / y)
  | _, _ => none

def sqlMul : Option ℚ → Option ℚ → Option ℚ
  | some x, some y => some (x * y)
  | _, _ => none

def sqlGt : Option ℚ → Option ℚ → Option Bool
  | some x, some y => some (decide (y < x))
  | _, _ => none

def sqlLt : Option ℚ → Option ℚ → Option Bool
  | some x, some y => some (decide (x < y))
  | _, _ => none

/-- SQL three-valued AND (Kleene). -/
def sqlAnd : Option Bool → Option Bool → Option Bool
  | some false, _ => some false
  | _, some false => some false
  | some true, some true => some true
  | _, _ => none

/-- SQL three-valued OR (Kleene). -/
def sqlOr : Option Bool → Option Bool → Option Bool
  | some true, _ => some true
  | _, some true => some true
  | some false, some false => some false
  | _, _ => none

/-- A SQL `CASE WHEN` branch is taken exactly when its condition evaluates
to TRUE (a NULL condition is not taken). -/
def sqlIsTrue (c : Option Bool) : Bool := c.getD false

/-- One row of the `rising_lagging_countries` view. -/
structure RisingLaggingRow where
  country_code : String
  country_name : String
  recent_demand : Option ℚ
  historical_demand : Option ℚ
  recent_supply : Option ℚ
  historical_supply : Option ℚ
  demand_growth_pct : Option ℚ
  supply_growth_pct : Option ℚ
  trend_status : String
deriving DecidableEq

/-- `AVG(CASE WHEN year >= 2020 THEN demand_index ELSE NULL END)`. -/
def recentDemand (g : List JobsRecord) : Option ℚ :=
  sqlAvg (g.map (fun r => if 2020 ≤ r.year then some r.demand_index else none))

/-- `AVG(CASE WHEN year < 2020 THEN demand_index ELSE NULL END)`. -/
def historicalDemand (g : List JobsRecord) : Option ℚ :=
  sqlAvg (g.map (fun r => if r.year < 2020 then some r.demand_index else none))

/-- `AVG(CASE WHEN year >= 2020 THEN supply_index ELSE NULL END)`. -/
def recentSupply (g : List JobsRecord) : Option ℚ :=
  sqlAvg (g.map (fun r => if 2020 ≤ r.year then some r.supply_index else none))

/-- `AVG(CASE WHEN year < 2020 THEN supply_index ELSE NULL END)`. -/
def historicalSupply (g : List JobsRecord) : Option ℚ :=
  sqlAvg (g.map (fun r => if r.year < 2020 then some r.supply_index else none))

/-- `(recent - historical) / NULLIF(historical, 0)`. -/
def growthRatio (recent historical : Option ℚ) : Option ℚ :=
  sqlDiv (sqlSub recent historical) (nullif historical 0)

/-- The `CASE` expression of the view: `'Rising'` when both growth ratios
exceed their thresholds (as SQL TRUE), otherwise `'Lagging'` when either
ratio is below its threshold (as SQL TRUE), otherwise `'Moderate'`. -/
def trendStatus (demand_ratio supply_ratio : Option ℚ) : String :=
  if sqlIsTrue (sqlAnd (sqlGt demand_ratio (some 0.2))
      (sqlGt supply_ratio (some 0.15))) then "Rising"
  else if sqlIsTrue (sqlOr (sqlLt demand_ratio (some 0.1))
      (sqlLt supply_ratio (some 0.05))) then "Lagging"
  else "Moderate"

/-- The view row built for one (country_code, country_name) group. -/
def rlRowFor (rows : List JobsRecord) (k : String × String) : RisingLaggingRow :=
  let g := rows.filter (fun r => (r.country_code, r.country_name) = k)
  { country_code := k.1
    country_name := k.2
    recent_demand := recentDemand g
    historical_demand := historicalDemand g
    recent_supply := recentSupply g
    historical_supply := historicalSupply g
    demand_growth_pct :=
      sqlMul (growthRatio (recentDemand g) (historicalDemand g)) (some 100)
    supply_growth_pct :=
      sqlMul (growthRatio (recentSupply g) (historicalSupply g)) (some 100)
    trend_status :=
      trendStatus (growthRatio (recentDemand g) (historicalDemand g))
        (growthRatio (recentSupply g) (historicalSupply g)) }

/-- `ORDER BY demand_growth_pct DESC` (DuckDB default: NULLS LAST). -/
def rlLe (r1 r2 : RisingLaggingRow) : Bool :=
  match r1.demand_growth_pct, r2.demand_growth_pct with
  | some x, some y => decide (y ≤ x)
  | some _, none => true
  | none, some _ => false
  | none, none => true

/-- The `rising_lagging_countries` view from `create_database` in
`load_data.py` (lines 275-311): the `recent_data` CTE groups the rows with
`year >= 2015` by (country_code, country_name) and averages the pre-2020
and post-2020 demand and supply; the outer SELECT computes NULLIF-guarded growth
ratios, percentage growths, the CASE classification, keeps the countries
whose two historical averages are not NULL, and orders by demand growth
descending. -/
def rising_lagging_countries (tbl : List JobsRecord) : List RisingLaggingRow :=
  let rows := tbl.filter (fun r => decide (2015 ≤ r.year))
  (((uniqueFirst (rows.map (fun r => (r.country_code, r.country_name)))).map
      (rlRowFor rows)).filter
    (fun r => r.historical_demand.isSome && r.historical_supply.isSome)).mergeSort
    rlLe

/-- The claim's reading of "growth exceeds t%": the reported (percentage)
growth is non-NULL and greater than t. -/
def optExceeds (g : Option ℚ) (t : ℚ) : Bool :=
  match g with
  | some x => decide (t < x)
  | none => false

/-- The claim's reading of "growth is below t%": the reported (percentage)
growth is non-NULL and less than t. -/
def optBelow (g : Option ℚ) (t : ℚ) : Bool :=
  match g with
  | some x => decide (x < t)
  | none => false

/-- The classification described by the claim, applied to the reported
percentage growths: Rising exactly when demand growth exceeds 20% and
supply growth exceeds 15%, otherwise Lagging exactly when demand growth is
below 10% or supply growth is below 5%, otherwise Moderate. -/
def claimed_trend_status (dg sg : Option ℚ) : String :=
  if optExceeds dg 20 && optExceeds sg 15 then "Rising"
  else if optBelow dg 10 || optBelow sg 5 then "Lagging"
  else "Moderate"

theorem isTrue_sqlAnd (p q : Option Bool) :
    sqlIsTrue (sqlAnd p q) = (sqlIsTrue p && sqlIsTrue q) := by
  rcases p with _ | _ | _ <;> rcases q with _ | _ | _ <;> rfl

theorem isTrue_sqlOr (p q : Option Bool) :
    sqlIsTrue (sqlOr p q) = (sqlIsTrue p || sqlIsTrue q) := by
  rcases p with _ | _ | _ <;> rcases q with _ | _ | _ <;> rfl

theorem isTrue_sqlGt_eq_optExceeds (g : Option ℚ) (t T : ℚ) (hT : T = t * 100) :
    sqlIsTrue (sqlGt g (some t)) = optExceeds (sqlMul g (some 100)) T := by
  rcases g with _ | x
  · rfl
  · simp only [sqlGt, sqlMul, sqlIsTrue, optExceeds, Option.getD_some, hT]
    exact decide_eq_decide.2 (by constructor <;> intro h <;> nlinarith)

theorem isTrue_sqlLt_eq_optBelow (g : Option ℚ) (t T : ℚ) (hT : T = t * 100) :
    sqlIsTrue (sqlLt g (some t)) = optBelow (sqlMul g (some 100)) T := by
  rcases g with _ | x
  · rfl
  · simp only [sqlLt, sqlMul, sqlIsTrue, optBelow, Option.getD_some, hT]
    exact decide_eq_decide.2 (by constructor <;> intro h <;> nlinarith)

theorem trendStatus_eq_claimed (dr sr : Option ℚ) :
    trendStatus dr sr =
      claimed_trend_status (sqlMul dr (some 100)) (sqlMul sr (some 100)) := by
  rw [trendStatus, claimed_trend_status, isTrue_sqlAnd, isTrue_sqlOr,
    isTrue_sqlGt_eq_optExceeds dr 0.2 20 (by norm_num),
    isTrue_sqlGt_eq_optExceeds sr 0.15 15 (by norm_num),
    isTrue_sqlLt_eq_optBelow dr 0.1 10 (by norm_num),
    isTrue_sqlLt_eq_optBelow sr 0.05 5 (by norm_num)]

/-- C2: every row of the `rising_lagging_countries` view carries the label
computed from its reported demand and supply percentage growths by the
claimed fixed thresholds: Rising exactly when demand growth exceeds 20% and
supply growth exceeds 15%, otherwise Lagging exactly when demand growth is
below 10% or supply growth is below 5%, otherwise Moderate. -/
theorem c2_trend_status_thresholds (tbl : List JobsRecord) :
    ∀ row ∈ rising_lagging_countries tbl,
      row.trend_status =
        claimed_trend_status row.demand_growth_pct row.supply_growth_pct := by
  intro row hrow
  simp only [rising_lagging_countries, List.mem_mergeSort, List.mem_filter,
    List.mem_map] at hrow
  obtain ⟨⟨k, hk, rfl⟩, hsome⟩ := hrow
  exact trendStatus_eq_claimed _ _

theorem sqlDiv_none_right (a : Option ℚ) : sqlDiv a none = none := by
  rcases a with _ | x <;> rfl

/-- C10: in the `rising_lagging_countries` view, a retained country whose
historical (pre-2020) demand and supply averages are both 0 gets NULL
growth ratios via the NULLIF guards, NULL reported growth percentages, and
the label `'Moderate'`; and every retained country receives exactly one of
the three labels. -/
theorem c10_zero_historical_moderate (tbl : List JobsRecord) :
    (∀ row ∈ rising_lagging_countries tbl,
      row.historical_demand = some 0 → row.historical_supply = some 0 →
        row.demand_growth_pct = none ∧ row.supply_growth_pct = none ∧
          row.trend_status = "Moderate") ∧
    (∀ row ∈ rising_lagging_countries tbl,
      row.trend_status = "Rising" ∨ row.trend_status = "Lagging" ∨
        row.trend_status = "Moderate") := by
  constructor
  · intro row hrow hd hs
    simp only [rising_lagging_countries, List.mem_mergeSort, List.mem_filter,
      List.mem_map] at hrow
    obtain ⟨⟨k, hk, rfl⟩, hsome⟩ := hrow
    simp only [rlRowFor] at hd hs ⊢
    rw [growthRatio, growthRatio, hd, hs]
    have hn : nullif (some (0 : ℚ)) 0 = none := by simp [nullif]
    rw [hn, sqlDiv_none_right, sqlDiv_none_right]
    exact ⟨rfl, rfl, rfl⟩
  · intro row hrow
    simp only [rising_lagging_countries, List.mem_mergeSort, List.mem_filter,
      List.mem_map] at hrow
    obtain ⟨⟨k, hk, rfl⟩, hsome⟩ := hrow
    simp only [rlRowFor, trendStatus]
    split
    · exact Or.inl rfl
    · split
      · exact Or.inr (Or.inl rfl)
      · exact Or.inr (Or.inr rfl)

/-- A table whose single country has pre-2020 demand and supply averages
equal to zero. -/
def exJobsTbl2 : List JobsRecord :=
  [{ country_code := "AAA", country_name := "A", year := 2016, industry := "X",
     skill_type := "Y", demand_index := 0, supply_index := 0, gap := 0 },
   { country_code := "AAA", country_name := "A", year := 2021, industry := "X",
     skill_type := "Y", demand_index := 5, supply_index := 5, gap := 0 }]

/-- The `rising_lagging_countries` view row for the country of
`exJobsTbl2`. -/
def exRlRow : RisingLaggingRow :=
  { country_code := "AAA", country_name := "A", recent_demand := some 5,
    historical_demand := some 0, recent_supply := some 5,
    historical_supply := some 0, demand_growth_pct := none,
    supply_growth_pct := none, trend_status := "Moderate" }

theorem exRlRow_mem : exRlRow ∈ rising_lagging_countries exJobsTbl2 := by
  simp only [rising_lagging_countries]
  refine List.mem_mergeSort.2 (List.mem_filter.2
    ⟨List.mem_map.2 ⟨("AAA", "A"), by decide, ?_⟩, by decide⟩)
  norm_num [rlRowFor, recentDemand, historicalDemand, recentSupply,
    historicalSupply, growthRatio, sqlAvg, nullif, sqlSub, sqlDiv, sqlMul,
    trendStatus, sqlGt, sqlLt, sqlAnd, sqlOr, sqlIsTrue, exJobsTbl2, exRlRow,
    List.filter, List.filterMap, RisingLaggingRow.mk.injEq]

/-- Witness for C10 at the concrete table `exJobsTbl2` and its view row. -/
theorem c10_witness :
    exRlRow.demand_growth_pct = none ∧ exRlRow.supply_growth_pct = none ∧
      exRlRow.trend_status = "Moderate" :=
  (c10_zero_historical_moderate exJobsTbl2).1 exRlRow exRlRow_mem rfl rfl

/-- A table whose single country has growing demand and supply: demand
grows from 10 to 15 (50%) and supply from 10 to 12 (20%). -/
def exJobsTbl3 : List JobsRecord :=
  [{ country_code := "BBB", country_name := "B", year := 2016, industry := "X",
     skill_type := "Y", demand_index := 10, supply_index := 10, gap := 0 },
   { country_code := "BBB", country_name := "B", year := 2021, industry := "X",
     skill_type := "Y", demand_index := 15, supply_index := 12, gap := 3 }]

/-- The `rising_lagging_countries` view row for the country of
`exJobsTbl3`. -/
def exRlRow2 : RisingLaggingRow :=
  { country_code := "BBB", country_name := "B", recent_demand := some 15,
    historical_demand := some 10, recent_supply := some 12,
    historical_supply := some 10, demand_growth_pct := some 50,
    supply_growth_pct := some 20, trend_status := "Rising" }

theorem exRlRow2_mem : exRlRow2 ∈ rising_lagging_countries exJobsTbl3 := by
  simp only [rising_lagging_countries]
  refine List.mem_mergeSort.2 (List.mem_filter.2
    ⟨List.mem_map.2 ⟨("BBB", "B"), by decide, ?_⟩, by decide⟩)
  norm_num [rlRowFor, recentDemand, historicalDemand, recentSupply,
    historicalSupply, growthRatio, sqlAvg, nullif, sqlSub, sqlDiv, sqlMul,
    trendStatus, sqlGt, sqlLt, sqlAnd, sqlOr, sqlIsTrue, exJobsTbl3, exRlRow2,
    List.filter, List.filterMap, RisingLaggingRow.mk.injEq]

/-- Witness for C2 at the concrete table `exJobsTbl3` and its Rising row. -/
theorem c2_witness :
    exRlRow2.trend_status =
      claimed_trend_status exRlRow2.demand_growth_pct
        exRlRow2.supply_growth_pct :=
  c2_trend_status_thresholds exJobsTbl3 exRlRow2 exRlRow2_mem

/-- One row of the forecast frame produced by `forecast_trends` in `app.py`
when called on country trends (`x_col = 'year'`,
`color_col = 'country_name'`). -/
structure ForecastRow where
  year : ℤ
  country_name : String
  avg_demand : ℚ
  avg_supply : ℚ
  is_forecast : Bool
deriving DecidableEq

/-- pandas `Series.max()` on the year column. -/
def maxYear : List ℤ → ℤ
  | [] => 0
  | a :: t => t.foldl max a

/-- Ordinary least-squares slope over paired columns, modelling the external
library's `LinearRegression().fit` on centred data; when the x column has
zero variance the centred minimum-norm solution has slope 0. -/
def lsSlope (xs ys : List ℚ) : ℚ :=
  let n : ℚ := xs.length
  let xbar := xs.sum / n
  let ybar := ys.sum / n
  let sxx := (xs.map (fun x => (x - xbar) ^ 2)).sum
  let sxy := ((xs.zip ys).map (fun p => (p.1 - xbar) * (p.2 - ybar))).sum
  if sxx = 0 then 0 else sxy / sxx

/-- Ordinary least-squares intercept. -/
def lsIntercept (xs ys : List ℚ) : ℚ :=
  ys.sum / (ys.length : ℚ) - lsSlope xs ys * (xs.sum / (xs.length : ℚ))

/-- The fitted line's prediction (`model.predict`). -/
def lsPredict (xs ys : List ℚ) (t : ℚ) : ℚ :=
  lsSlope xs ys * t + lsIntercept xs ys

/-- `group_df.sort_values(x_col)` comparison. -/
def yearLe (r1 r2 : CountryTrendRow) : Bool := decide (r1.year ≤ r2.year)

/-- The loop body of `forecast_trends` in `app.py` (lines 319-375) for one
group value: sort the group's rows by year, skip groups with fewer than two
rows, fit the demand and supply regressions, and emit one forecast row for
each of the next `forecast_years` years after `max_year`, with predictions
clamped below at 0. -/
def forecastBlock (df : List CountryTrendRow) (max_year : ℤ)
    (forecast_years : ℕ) (g : String) : List ForecastRow :=
  let group_df := (df.filter (fun r => r.country_name = g)).mergeSort yearLe
  if group_df.length < 2 then []
  else
    let xs := group_df.map (fun r => (r.year : ℚ))
    let y_demand := group_df.map (·.avg_demand)
    let y_supply := group_df.map (·.avg_supply)
    (List.range forecast_years).map fun (i : ℕ) =>
      let year := max_year + 1 + (i : ℤ)
      { year := year
        country_name := g
        avg_demand := max 0 (lsPredict xs y_demand (year : ℚ))
        avg_supply := max 0 (lsPredict xs y_supply (year : ℚ))
        is_forecast := true }

/-- `forecast_trends` from `app.py`: `max_year` is the maximum year of the
whole input frame, and the groups are the distinct `color_col` values in
order of first appearance (`df[color_col].unique()`). -/
def forecast_trends (df : List CountryTrendRow) (forecast_years : ℕ) :
    List ForecastRow :=
  (uniqueFirst (df.map (·.country_name))).flatMap
    (forecastBlock df (maxYear (df.map (·.year))) forecast_years)

theorem forecastBlock_names (df : List CountryTrendRow) (m : ℤ) (n : ℕ)
    (g : String) : ∀ r ∈ forecastBlock df m n g, r.country_name = g := by
  intro r hr
  simp only [forecastBlock] at hr
  split at hr
  · simp at hr
  · obtain ⟨i, hi, rfl⟩ := List.mem_map.1 hr
    rfl

theorem filter_flatMap_not_mem (keys : List String)
    (F : String → List ForecastRow)
    (hF : ∀ g', ∀ r ∈ F g', r.country_name = g') (g : String)
    (hg : g ∉ keys) :
    (keys.flatMap F).filter (fun r => r.country_name = g) = [] := by
  rw [List.filter_eq_nil_iff]
  intro r hr
  obtain ⟨g', hg', hrg⟩ := List.mem_flatMap.1 hr
  simp only [decide_eq_true_eq]
  rw [hF g' r hrg]
  rintro rfl
  exact hg hg'

theorem filter_flatMap_mem (keys : List String)
    (F : String → List ForecastRow)
    (hF : ∀ g', ∀ r ∈ F g', r.country_name = g') (g : String)
    (hnd : keys.Nodup) (hg : g ∈ keys) :
    (keys.flatMap F).filter (fun r => r.country_name = g) = F g := by
  induction keys with
  | nil => simp at hg
  | cons k t ih =>
      rw [List.flatMap_cons, List.filter_append]
      by_cases hkg : k = g
      · subst hkg
        have h1 : (F k).filter (fun r => r.country_name = k) = F k :=
          List.filter_eq_self.2 (fun r hr => by simp [hF k r hr])
        have h2 : (t.flatMap F).filter (fun r => r.country_name = k) = [] :=
          filter_flatMap_not_mem t F hF k (List.nodup_cons.1 hnd).1
        rw [h1, h2, List.append_nil]
      · have h1 : (F k).filter (fun r => r.country_name = g) = [] := by
          rw [List.filter_eq_nil_iff]
          intro r hr
          simp only [decide_eq_true_eq]
          rw [hF k r hr]
          exact hkg
        have hgt : g ∈ t := by
          rcases List.mem_cons.1 hg with h | h
          · exact absurd h.symm hkg
          · exact h
        rw [h1, List.nil_append]
        exact ih (List.nodup_cons.1 hnd).2 hgt

theorem lsSlope_perm {α : Type} (l l' : List α) (h : l'.Perm l)
    (f g : α → ℚ) :
    lsSlope (l'.map f) (l'.map g) = lsSlope (l.map f) (l.map g) := by
  have h3 : ∀ F : α → ℚ, (l'.map F).sum = (l.map F).sum :=
    fun F => (h.map F).sum_eq
  rw [lsSlope, lsSlope]
  simp only [List.length_map, h.length_eq, List.zip_map', List.map_map,
    Function.comp_def, h3]

theorem lsIntercept_perm {α : Type} (l l' : List α) (h : l'.Perm l)
    (f g : α → ℚ) :
    lsIntercept (l'.map f) (l'.map g) = lsIntercept (l.map f) (l.map g) := by
  have h3 : ∀ F : α → ℚ, (l'.map F).sum = (l.map F).sum :=
    fun F => (h.map F).sum_eq
  rw [lsIntercept, lsIntercept, lsSlope_perm l l' h f g]
  simp only [List.length_map, h.length_eq, h3]

theorem lsPredict_perm {α : Type} (l l' : List α) (h : l'.Perm l)
    (f g : α → ℚ) (t : ℚ) :
    lsPredict (l'.map f) (l'.map g) t = lsPredict (l.map f) (l.map g) t := by
  rw [lsPredict, lsPredict, lsSlope_perm l l' h f g, lsIntercept_perm l l' h f g]

/-- C4: for every input frame, horizon and group value: a group with fewer
than two rows contributes no forecast rows, and a group with at least two
rows contributes exactly `forecast_years` rows, one for each year from
`max_year + 1` through `max_year + forecast_years` (`max_year` being the
maximum year of the whole frame), whose `avg_demand` and `avg_supply` are
the least-squares linear-regression predictions for that year over the
group's rows, clamped below at 0. -/
theorem c4_forecast_linear_regression (df : List CountryTrendRow) (n : ℕ)
    (g : String) :
    ((df.filter (fun r => r.country_name = g)).length < 2 →
      (forecast_trends df n).filter (fun r => r.country_name = g) = []) ∧
    (2 ≤ (df.filter (fun r => r.country_name = g)).length →
      (forecast_trends df n).filter (fun r => r.country_name = g) =
        (List.range n).map fun i =>
          { year := maxYear (df.map (·.year)) + 1 + (i : ℤ)
            country_name := g
            avg_demand := max 0 (lsPredict
              ((df.filter (fun r => r.country_name = g)).map (fun r => (r.year : ℚ)))
              ((df.filter (fun r => r.country_name = g)).map (·.avg_demand))
              ((maxYear (df.map (·.year)) + 1 + (i : ℤ) : ℤ) : ℚ))
            avg_supply := max 0 (lsPredict
              ((df.filter (fun r => r.country_name = g)).map (fun r => (r.year : ℚ)))
              ((df.filter (fun r => r.country_name = g)).map (·.avg_supply))
              ((maxYear (df.map (·.year)) + 1 + (i : ℤ) : ℤ) : ℚ))
            is_forecast := true }) := by
  have hF := forecastBlock_names df (maxYear (df.map (·.year))) n
  constructor
  · intro hlt
    by_cases hmem : g ∈ uniqueFirst (df.map (·.country_name))
    · rw [forecast_trends, filter_flatMap_mem _ _ hF g
        (nodup_uniqueFirst _) hmem]
      rw [forecastBlock]
      simp only [List.length_mergeSort]
      rw [if_pos hlt]
    · rw [forecast_trends, filter_flatMap_not_mem _ _ hF g hmem]
  · intro hge
    have hmem : g ∈ uniqueFirst (df.map (·.country_name)) := by
      rw [mem_uniqueFirst]
      have hpos : 0 < (df.filter (fun r => r.country_name = g)).length := by
        omega
      obtain ⟨r, hr⟩ := List.exists_mem_of_length_pos hpos
      have := List.mem_filter.1 hr
      rw [List.mem_map]
      exact ⟨r, this.1, by simpa using this.2⟩
    rw [forecast_trends, filter_flatMap_mem _ _ hF g (nodup_uniqueFirst _) hmem]
    rw [forecastBlock]
    simp only [List.length_mergeSort]
    rw [if_neg (by omega)]
    refine List.map_congr_left ?_
    intro i _
    have hperm : ((df.filter (fun r => r.country_name = g)).mergeSort
        yearLe).Perm (df.filter (fun r => r.country_name = g)) :=
      List.mergeSort_perm _ _
    rw [lsPredict_perm _ _ hperm (fun r => (r.year : ℚ)) (·.avg_demand),
      lsPredict_perm _ _ hperm (fun r => (r.year : ℚ)) (·.avg_supply)]

/-- A two-row country-trends frame for one country across 2020 and 2021. -/
def exCtTbl : List CountryTrendRow :=
  [{ country_code := "CCC", country_name := "C", year := 2020,
     avg_demand := 1, avg_supply := 1, avg_gap := 0, num_records := 1 },
   { country_code := "CCC", country_name := "C", year := 2021,
     avg_demand := 3, avg_supply := 1, avg_gap := 2, num_records := 1 }]

/-- Witness for C4 at the concrete frame `exCtTbl`, one forecast year and
the group value "C". -/
theorem c4_witness :
    2 ≤ (exCtTbl.filter (fun r => r.country_name = "C")).length ∧
    (forecast_trends exCtTbl 1).filter (fun r => r.country_name = "C") =
      (List.range 1).map fun i =>
        { year := maxYear (exCtTbl.map (·.year)) + 1 + (i : ℤ)
          country_name := "C"
          avg_demand := max 0 (lsPredict
            ((exCtTbl.filter (fun r => r.country_name = "C")).map
              (fun r => (r.year : ℚ)))
            ((exCtTbl.filter (fun r => r.country_name = "C")).map
              (·.avg_demand))
            ((maxYear (exCtTbl.map (·.year)) + 1 + (i : ℤ) : ℤ) : ℚ))
          avg_supply := max 0 (lsPredict
            ((exCtTbl.filter (fun r => r.country_name = "C")).map
              (fun r => (r.year : ℚ)))
            ((exCtTbl.filter (fun r => r.country_name = "C")).map
              (·.avg_supply))
            ((maxYear (exCtTbl.map (·.year)) + 1 + (i : ℤ) : ℤ) : ℚ))
          is_forecast := true } :=
  ⟨by decide, (c4_forecast_linear_regression exCtTbl 1 "C").2 (by decide)⟩

end DigitalJobs
